import Mathlib

/-!
# Verification of the muselog content ingestion/retrieval pipeline

Shallow embedding of the pipeline described in `spec.md`, translated from the
TypeScript sources:

* `src/lib/content-processor.ts` — extraction, orchestration, Prisma storage;
* `src/app/api/store-source/route.ts` — the parallel Supabase storage path;
* the embeddings module (`generateEmbedding`, `embeddingToBuffer`,
  `bufferToEmbedding`, `searchSimilarContent`).

External boundaries (the generative-AI provider, the transcript fetcher, the
database client) are modelled as explicit oracle records passed to the
functions, so that every possible provider/storage outcome (success or thrown
error) is quantified over.  JavaScript thrown values are modelled by `JsError`
(error class name + message); JavaScript truthiness of optional strings
(`undefined` and `""` are both falsy) is modelled explicitly.
-/

set_option autoImplicit false

namespace Muselog

/-- A thrown JavaScript error value: the error class name (`Error`,
`RangeError`, ...) and its message. -/
structure JsError where
  name : String
  message : String
  deriving DecidableEq, Repr

instance {ε α : Type} [DecidableEq ε] [DecidableEq α] :
    DecidableEq (Except ε α) := fun x y =>
  match x, y with
  | .ok a, .ok b =>
    if h : a = b then .isTrue (by rw [h])
    else .isFalse (by intro hc; cases hc; exact h rfl)
  | .error a, .error b =>
    if h : a = b then .isTrue (by rw [h])
    else .isFalse (by intro hc; cases hc; exact h rfl)
  | .ok _, .error _ => .isFalse (by intro hc; cases hc)
  | .error _, .ok _ => .isFalse (by intro hc; cases hc)

/-- JavaScript `a || b` for an optional string `a` (both `undefined` and the
empty string are falsy). -/
def jsOrStr (a : Option String) (b : String) : String :=
  match a with
  | some s => if s = "" then b else s
  | none => b

/-- `s` contains `pat` as a substring. -/
def strContains (s pat : String) : Prop :=
  ∃ l r : String, s = l ++ pat ++ r

/-! ## Embedding codec

`embeddingToBuffer` builds a `Float32Array` from the vector and returns its
backing bytes; `bufferToEmbedding` views the buffer's bytes as a
`Float32Array` and converts back to a plain array.  A float32 component is
modelled by its 32-bit pattern (a `Nat` below `2^32`); the buffer stores each
component as four little-endian bytes, exactly as a `Float32Array` backing
buffer does.  This models precisely the float32-representable inputs, for
which the JS `number → float32` narrowing in the constructor is the identity
on values. -/

/-- The four little-endian bytes of one 32-bit float pattern. -/
def float32ToLEBytes (bits : Nat) : List Nat :=
  [bits % 256, bits / 256 % 256, bits / 65536 % 256, bits / 16777216 % 256]

/-- `embeddingToBuffer` (embeddings module, lines 40–46): the bytes of
`Buffer.from(new Float32Array(embedding).buffer)`. -/
def embeddingToBuffer (v : List Nat) : List Nat :=
  (v.map float32ToLEBytes).flatten

/-- The platform error thrown by `new Float32Array(buffer)` when the byte
length is not a multiple of 4 (Node raises a `RangeError`). -/
def float32LengthRangeError : JsError :=
  ⟨"RangeError", "byte length of Float32Array should be a multiple of 4"⟩

/-- Reassemble 32-bit patterns from groups of four little-endian bytes. -/
def decodeFloat32LE : List Nat → List Nat
  | b0 :: b1 :: b2 :: b3 :: rest =>
    (b0 + 256 * b1 + 65536 * b2 + 16777216 * b3) :: decodeFloat32LE rest
  | _ => []

/-- `bufferToEmbedding` (embeddings module, lines 53–64): slices the backing
buffer and views it as a `Float32Array`.  When the byte length is not a
multiple of 4 the `Float32Array` constructor throws a `RangeError`; there is
no custom error class (in particular no `MalformedEmbeddingError` exists
anywhere in the repository). -/
def bufferToEmbedding (buf : List Nat) : Except JsError (List Nat) :=
  if buf.length % 4 = 0 then .ok (decodeFloat32LE buf)
  else .error float32LengthRangeError

theorem embeddingToBuffer_cons (a : Nat) (t : List Nat) :
    embeddingToBuffer (a :: t) = float32ToLEBytes a ++ embeddingToBuffer t := rfl

theorem length_embeddingToBuffer (v : List Nat) :
    (embeddingToBuffer v).length = 4 * v.length := by
  induction v with
  | nil => rfl
  | cons a t ih =>
    rw [embeddingToBuffer_cons, List.length_append, ih]
    simp [float32ToLEBytes, List.length_cons]
    omega

theorem decodeFloat32LE_embeddingToBuffer (v : List Nat)
    (h : ∀ x ∈ v, x < 4294967296) :
    decodeFloat32LE (embeddingToBuffer v) = v := by
  induction v with
  | nil => rfl
  | cons a t ih =>
    rw [embeddingToBuffer_cons]
    have ha : a < 4294967296 := h a (List.mem_cons_self a t)
    show decodeFloat32LE
        (a % 256 :: a / 256 % 256 :: a / 65536 % 256 :: a / 16777216 % 256 ::
          embeddingToBuffer t) = a :: t
    rw [decodeFloat32LE]
    have hhead :
        a % 256 + 256 * (a / 256 % 256) + 65536 * (a / 65536 % 256)
          + 16777216 * (a / 16777216 % 256) = a := by omega
    rw [hhead, ih (fun x hx => h x (List.mem_cons_of_mem a hx))]

/-- C3: the embedding codec round-trips exactly — for every vector of
float32-representable components (modelled by their 32-bit patterns),
`bufferToEmbedding (embeddingToBuffer v)` succeeds and returns a vector
element-wise bit-equal to `v`. -/
theorem bufferToEmbedding_embeddingToBuffer (v : List Nat)
    (h : ∀ x ∈ v, x < 4294967296) :
    bufferToEmbedding (embeddingToBuffer v) = .ok v := by
  unfold bufferToEmbedding
  rw [length_embeddingToBuffer, decodeFloat32LE_embeddingToBuffer v h]
  simp

theorem bufferToEmbedding_embeddingToBuffer_witness :
    bufferToEmbedding (embeddingToBuffer [0, 1, 3141592653]) =
      .ok [0, 1, 3141592653] :=
  bufferToEmbedding_embeddingToBuffer [0, 1, 3141592653] (by decide)

/-- C4 counterexample: on the one-byte input `[0]` (length `1 % 4 ≠ 0`),
`bufferToEmbedding` fails with the platform `RangeError` thrown by the
`Float32Array` constructor, whose error class name is not
`MalformedEmbeddingError` (no such error class exists in the repository). -/
theorem bufferToEmbedding_error_is_rangeError :
    bufferToEmbedding [0] = .error float32LengthRangeError ∧
    float32LengthRangeError.name = "RangeError" ∧
    float32LengthRangeError.name ≠ "MalformedEmbeddingError" :=
  ⟨rfl, rfl, by decide⟩

/-- C4 (amended): for every byte sequence whose length is not a multiple of
4, `bufferToEmbedding` fails — with the platform `RangeError` raised by the
`Float32Array` constructor — and never returns a vector. -/
theorem bufferToEmbedding_fails_on_bad_length (buf : List Nat)
    (h : buf.length % 4 ≠ 0) :
    bufferToEmbedding buf = .error float32LengthRangeError := by
  unfold bufferToEmbedding
  simp [h]

theorem bufferToEmbedding_fails_on_bad_length_witness :
    bufferToEmbedding [7, 7, 7] = .error float32LengthRangeError :=
  bufferToEmbedding_fails_on_bad_length [7, 7, 7] (by decide)

/-! ## Retrieval query (`searchSimilarContent`, embeddings module lines 109–158)

The OpenAI embedding request and the Supabase `match_documents` RPC are the
two external calls; both are modelled by a `SearchOracle`, and the function
additionally returns the ordered list of external calls it performed.  The
`sql` string built inside the source function is dead code (it is constructed
but never executed — the only database call is `supabase.rpc`), so it does
not appear in the model. -/

/-- One row returned by the `match_documents` RPC. -/
structure MatchRow where
  id : String
  content : String
  similarity : Rat
  deriving DecidableEq, Repr

/-- The argument object passed to `supabase.rpc("match_documents", ...)`. -/
structure RpcArgs where
  queryEmbedding : List Nat
  matchThreshold : Rat
  matchCount : Int
  filterSpaceId : Option String
  deriving DecidableEq, Repr

/-- An external call made by the search path, in order. -/
inductive SearchCall where
  | embedQuery (text : String)
  | rpcMatchDocuments (args : RpcArgs)
  deriving DecidableEq, Repr

/-- Outcomes of the two external boundaries used by the search path. -/
structure SearchOracle where
  embed : String → Except JsError (List Nat)
  rpc : RpcArgs → Except JsError (List MatchRow)

/-- `generateEmbedding` truncates text longer than 8000 characters before the
provider call. -/
def truncateForEmbedding (text : String) : String :=
  if text.length > 8000 then text.take 8000 else text

/-- `generateEmbedding` (embeddings module, lines 21–33): embeds the
(possibly truncated) text; any provider error is caught and rethrown as a
generic `Error`. -/
def generateEmbedding (o : SearchOracle) (text : String) :
    Except JsError (List Nat) :=
  match o.embed (truncateForEmbedding text) with
  | .ok v => .ok v
  | .error _ => .error ⟨"Error", "Failed to generate embedding"⟩

/-- The error rethrown by `searchSimilarContent`'s catch-all. -/
def searchFailedError : JsError := ⟨"Error", "Failed to search similar content"⟩

/-- The spread `...(spaceId && { filter_space_id: spaceId })`: the filter key
is present only when `spaceId` is truthy. -/
def normalizeSpaceFilter (spaceId : Option String) : Option String :=
  match spaceId with
  | some s => if s = "" then none else some s
  | none => none

/-- The RPC argument object built by `searchSimilarContent`
(`match_threshold: 0.5`, `match_count: limit`). -/
def mkRpcArgs (v : List Nat) (limit : Int) (spaceId : Option String) :
    RpcArgs :=
  { queryEmbedding := v
    matchThreshold := 1 / 2
    matchCount := limit
    filterSpaceId := normalizeSpaceFilter spaceId }

/-- `searchSimilarContent` (embeddings module, lines 109–158): embed the
query, call the `match_documents` RPC with `match_count := limit`, return the
rows; every internal error is caught and rethrown as `searchFailedError`.
The second component is the ordered trace of external calls performed.
Note: the `limit` argument is never validated. -/
def searchSimilarContent (o : SearchOracle) (query : String)
    (spaceId : Option String) (limit : Int) :
    Except JsError (List MatchRow) × List SearchCall :=
  match generateEmbedding o query with
  | .error _ =>
    (.error searchFailedError, [.embedQuery (truncateForEmbedding query)])
  | .ok qe =>
    match o.rpc (mkRpcArgs qe limit spaceId) with
    | .error _ =>
      (.error searchFailedError,
       [.embedQuery (truncateForEmbedding query),
        .rpcMatchDocuments (mkRpcArgs qe limit spaceId)])
    | .ok rows =>
      (.ok rows,
       [.embedQuery (truncateForEmbedding query),
        .rpcMatchDocuments (mkRpcArgs qe limit spaceId)])

/-- A benign concrete environment: the embedding provider and the RPC both
succeed. -/
def benignSearchOracle : SearchOracle where
  embed := fun _ => .ok [1, 2]
  rpc := fun _ => .ok [⟨"chunk-1", "hello", 1⟩]

/-- C9 counterexample: called with `limit = 0` in a benign environment,
`searchSimilarContent` does not fail with `InvalidArgumentError` — it does
not fail at all: it embeds the query (an embedding call is made), calls the
database RPC with `match_count = 0`, and returns the rows.  No
`InvalidArgumentError` class exists anywhere in the repository. -/
theorem searchSimilarContent_limit_zero_succeeds :
    searchSimilarContent benignSearchOracle "q" none 0 =
      (.ok [⟨"chunk-1", "hello", 1⟩],
       [.embedQuery "q", .rpcMatchDocuments (mkRpcArgs [1, 2] 0 none)]) := rfl

/-- C9 (amended): `searchSimilarContent` performs no validation of `limit`.
For every `limit ≤ 0`, whenever the embedding provider answers, the function
first makes the embedding call and then the database RPC with
`match_count = limit`, returning the RPC rows on success and the generic
`searchFailedError` on RPC failure — never an `InvalidArgumentError`. -/
theorem searchSimilarContent_no_limit_validation (o : SearchOracle)
    (query : String) (spaceId : Option String) (limit : Int) (v : List Nat)
    (hemb : o.embed (truncateForEmbedding query) = .ok v)
    (hlim : limit ≤ 0) :
    searchSimilarContent o query spaceId limit =
      ((match o.rpc (mkRpcArgs v limit spaceId) with
        | .ok rows => .ok rows
        | .error _ => .error searchFailedError),
       [.embedQuery (truncateForEmbedding query),
        .rpcMatchDocuments (mkRpcArgs v limit spaceId)]) := by
  unfold searchSimilarContent generateEmbedding
  rw [hemb]
  cases hr : o.rpc (mkRpcArgs v limit spaceId) <;> simp [hr]

theorem searchSimilarContent_no_limit_validation_witness :
    searchSimilarContent benignSearchOracle "neural" (some "space-1") (-3) =
      ((match benignSearchOracle.rpc (mkRpcArgs [1, 2] (-3) (some "space-1"))
          with
        | .ok rows => .ok rows
        | .error _ => .error searchFailedError),
       [.embedQuery "neural",
        .rpcMatchDocuments (mkRpcArgs [1, 2] (-3) (some "space-1"))]) :=
  searchSimilarContent_no_limit_validation benignSearchOracle "neural"
    (some "space-1") (-3) [1, 2] rfl (by decide)

/-! ## Source content extraction: YouTube transcripts

`processYouTubeVideo` (content-processor.ts lines 353–553) fetches the
caption track, joins the cue texts with `" "` and collapses whitespace runs
(`.replace(/\s+/g, " ")`), degrades to a raw single-chunk result when the
server API key is absent, and otherwise asks the provider to chunk the
transcript.  The provider call and its JSON-parsed response are one oracle
(`chunkTranscript`); the stray inlined sample script in the middle of the
source function (lines 425–539) contributes nothing to the returned value
and is absorbed into that oracle.  The whole body is wrapped in a catch that
rethrows `Failed to process YouTube video: <message>`. -/

/-- One caption cue as returned by the transcript fetcher (only the `text`
field is used by the code). -/
structure TranscriptEntry where
  text : String
  deriving DecidableEq, Repr

/-- A chunking/summary result as produced by the generative-AI provider. -/
structure ProcessingResult where
  text : List String
  summary : String
  deriving DecidableEq, Repr

/-- The parsed provider JSON: both fields may be absent. -/
structure GeminiResponse where
  text : Option (List String)
  summary : Option String
  deriving DecidableEq, Repr

/-- External boundaries of the YouTube path: the transcript fetcher (which
may throw, return `null`, or return a cue list), the presence of the
`GEMINI_API_KEY`, and the provider transcript-chunking call. -/
structure YtOracle where
  fetchTranscript : String → Except JsError (Option (List TranscriptEntry))
  apiKeyPresent : Bool
  chunkTranscript : String → Except JsError GeminiResponse

/-- The characters matched by the regex class `\s` (common cases). -/
def isJsWs (c : Char) : Bool :=
  c = ' ' || c = '\t' || c = '\n' || c = '\r' || c = '\x0b' || c = '\x0c'

/-- `.replace(/\s+/g, " ")` on a character list: every maximal run of
whitespace becomes a single space. -/
def collapseWsChars : List Char → List Char
  | [] => []
  | [c] => if isJsWs c then [' '] else [c]
  | c1 :: c2 :: rest =>
    if isJsWs c1 && isJsWs c2 then collapseWsChars (c2 :: rest)
    else (if isJsWs c1 then ' ' else c1) :: collapseWsChars (c2 :: rest)

/-- `.replace(/\s+/g, " ")` on a string. -/
def collapseWs (s : String) : String := String.mk (collapseWsChars s.data)

/-- `transcript.map(e => e.text).join(" ").replace(/\s+/g, " ")`. -/
def ytFullText (entries : List TranscriptEntry) : String :=
  collapseWs (String.intercalate " " (entries.map TranscriptEntry.text))

/-- The error thrown when the fetched transcript is `null`/empty. -/
def noTranscriptError : JsError :=
  ⟨"Error", "No transcript available for this video"⟩

/-- The placeholder summary returned when no API key is configured. -/
def ytPlaceholderSummary : String :=
  "Transcript of YouTube video (summary not available without Gemini AI)"

/-- The `try` body of `processYouTubeVideo`. -/
def processYouTubeVideoBody (o : YtOracle) (videoId : String) :
    Except JsError ProcessingResult :=
  match o.fetchTranscript videoId with
  | .error e => .error e
  | .ok none => .error noTranscriptError
  | .ok (some entries) =>
    if entries.length = 0 then .error noTranscriptError
    else
      if o.apiKeyPresent = false then
        .ok { text := [ytFullText entries], summary := ytPlaceholderSummary }
      else
        match o.chunkTranscript (ytFullText entries) with
        | .error e => .error e
        | .ok r =>
          .ok { text := r.text.getD [ytFullText entries],
                summary := jsOrStr r.summary "YouTube video transcript (processed)" }

/-- `processYouTubeVideo` (content-processor.ts lines 353–553): the body
above, with the catch-all that rewraps any error. -/
def processYouTubeVideo (o : YtOracle) (videoId : String) :
    Except JsError ProcessingResult :=
  match processYouTubeVideoBody o videoId with
  | .ok r => .ok r
  | .error e =>
    .error ⟨"Error", "Failed to process YouTube video: " ++ e.message⟩

/-- C7: graceful degradation without an AI key — for every video whose
transcript fetch returns a non-empty cue list, if the API key is absent,
`processYouTubeVideo` succeeds with exactly one chunk equal to the
whitespace-normalized concatenation of the cue texts, and the placeholder
summary. -/
theorem processYouTubeVideo_no_api_key (o : YtOracle) (videoId : String)
    (entries : List TranscriptEntry)
    (hfetch : o.fetchTranscript videoId = .ok (some entries))
    (hne : entries ≠ [])
    (hkey : o.apiKeyPresent = false) :
    processYouTubeVideo o videoId =
      .ok { text := [collapseWs (String.intercalate " "
              (entries.map TranscriptEntry.text))],
            summary := ytPlaceholderSummary } := by
  have hlen : entries.length ≠ 0 := by simpa using hne
  unfold processYouTubeVideo processYouTubeVideoBody
  rw [hfetch]
  simp [hlen, hkey, ytFullText]

/-- A concrete no-API-key environment for the witness. -/
def noKeyYtOracle : YtOracle where
  fetchTranscript := fun _ => .ok (some [⟨"hello   world"⟩, ⟨"again"⟩])
  apiKeyPresent := false
  chunkTranscript := fun _ => .ok ⟨none, none⟩

theorem processYouTubeVideo_no_api_key_witness :
    processYouTubeVideo noKeyYtOracle "vid123" =
      .ok { text := ["hello world again"], summary := ytPlaceholderSummary } := by
  have h := processYouTubeVideo_no_api_key noKeyYtOracle "vid123"
    [⟨"hello   world"⟩, ⟨"again"⟩] rfl (by decide) rfl
  exact h.trans (by decide)

/-! ## YouTube URL parsing

`extractYouTubeVideoId` (content-processor.ts lines 924–929) applies
`/^.*(youtu.be\/|v\/|u\/\w\/|embed\/|watch\?v=|&v=)([^#&?]*).*/` and accepts
the second capture iff it has exactly 11 characters.  The greedy leading
`.*` makes the engine pick the rightmost position where one of the marker
alternatives matches (alternatives tried in written order at that position);
the second capture is then the maximal run of characters other than
`#`, `&`, `?`.  The unescaped `.` in `youtu.be` matches any character.  The
model assumes single-line input (JS `.` does not match line terminators). -/

/-- The regex class `\w`. -/
def isWordChar (c : Char) : Bool :=
  ('a' ≤ c && c ≤ 'z') || ('A' ≤ c && c ≤ 'Z') || ('0' ≤ c && c ≤ '9') || c = '_'

/-- Does `youtu.be\/` (unescaped dot: any character) match at the head? -/
def matchYoutuBe : List Char → Bool
  | 'y' :: 'o' :: 'u' :: 't' :: 'u' :: _ :: 'b' :: 'e' :: '/' :: _ => true
  | _ => false

/-- Does `u\/\w\/` match at the head? -/
def matchUserPath : List Char → Bool
  | 'u' :: '/' :: w :: '/' :: _ => isWordChar w
  | _ => false

/-- Length consumed by the first marker alternative matching at the head,
in the regex's written order. -/
def markerMatchLen (cs : List Char) : Option Nat :=
  if matchYoutuBe cs then some 9
  else if ['v', '/'].isPrefixOf cs then some 2
  else if matchUserPath cs then some 4
  else if ['e', 'm', 'b', 'e', 'd', '/'].isPrefixOf cs then some 6
  else if ['w', 'a', 't', 'c', 'h', '?', 'v', '='].isPrefixOf cs then some 8
  else if ['&', 'v', '='].isPrefixOf cs then some 3
  else none

/-- The second capture for the rightmost marker occurrence:
`[^#&?]*` after the marker. -/
def lastMarkerCapture : List Char → Option (List Char)
  | [] => none
  | c :: rest =>
    match lastMarkerCapture rest with
    | some cap => some cap
    | none =>
      match markerMatchLen (c :: rest) with
      | some len =>
        some (((c :: rest).drop len).takeWhile
          fun ch => ch ≠ '#' && ch ≠ '&' && ch ≠ '?')
      | none => none

/-- `extractYouTubeVideoId` (content-processor.ts lines 924–929). -/
def extractYouTubeVideoId (url : String) : Option String :=
  match lastMarkerCapture url.data with
  | none => none
  | some cap => if cap.length = 11 then some (String.mk cap) else none

/-! ## Persistence: data model and the two storage paths

The persistence boundary (spec §6) is consumed: creates may fail with a
database error, and `prisma.$transaction` commits the callback's writes only
when the callback does not throw, rolling everything back otherwise.
A `StorageBehavior` fixes the outcome of each create call of one run. -/

/-- The closed `SourceData.type` union. -/
inductive SourceType where
  | pdf
  | image
  | youtube
  | audio
  | text
  deriving DecidableEq, Repr

/-- `SourceData` (content-processor.ts lines 59–69); the TS field `type` is
called `sourceType` here (`type` is a Lean keyword). -/
structure SourceData where
  name : String
  description : Option String
  url : Option String
  filepath : Option String
  sourceType : SourceType
  tags : Option (List String)
  spaceId : String
  userId : Option String
  metadata : Option (List (String × String))
  deriving DecidableEq, Repr

/-- A persisted `Source` row (Prisma path). -/
structure SourceRow where
  id : String
  name : String
  description : String
  url : Option String
  filepath : Option String
  sourceType : SourceType
  tags : List String
  metadata : List (String × String)
  spaceId : String
  deriving DecidableEq, Repr

/-- A persisted `Chunk` row (Prisma path); `chunkIndexMeta` is the
`metadata: { chunk_index: index }` payload. -/
structure ChunkRow where
  content : String
  tags : List String
  chunkIndexMeta : Nat
  sourceId : String
  deriving DecidableEq, Repr

/-- The Prisma database state touched by ingestion. -/
structure Db where
  sources : List SourceRow
  chunks : List ChunkRow
  deriving DecidableEq, Repr

/-- Outcomes of the Prisma create calls during one storage run:
`sourceCreate` yields the assigned source id or a thrown database error
(including referential failures such as a missing space); `chunkCreate i` is
the outcome of creating the chunk at index `i` (`none` = success). -/
structure StorageBehavior where
  sourceCreate : Except JsError String
  chunkCreate : Nat → Option JsError

/-- The reason of the first rejected chunk-create among indices `0..n-1`
(`Promise.all` rejects with the first rejection). -/
def firstChunkErrorAux (s : StorageBehavior) (i : Nat) : Nat → Option JsError
  | 0 => none
  | r + 1 =>
    match s.chunkCreate i with
    | some e => some e
    | none => firstChunkErrorAux s (i + 1) r

/-- First failing chunk-create outcome among `n` chunk creates. -/
def firstChunkError (s : StorageBehavior) (n : Nat) : Option JsError :=
  firstChunkErrorAux s 0 n

/-- `SourceProcessingResult` (content-processor.ts lines 74–81). -/
structure SourceProcessingResult where
  sourceId : String
  name : String
  description : String
  chunkCount : Nat
  success : Bool
  error : Option String
  deriving DecidableEq, Repr

/-- The failure result built by the catch blocks of
`processAndStoreSource` / `storeProcessedContentWithPrisma`. -/
def failedResult (sd : SourceData) (msg : String) : SourceProcessingResult :=
  { sourceId := ""
    name := sd.name
    description := jsOrStr sd.description ""
    chunkCount := 0
    success := false
    error := some msg }

/-- The `tx.source.create` row: `description` falls back to the summary,
`tags`/`metadata` default when `undefined`. -/
def mkSourceRow (id : String) (pr : ProcessingResult) (sd : SourceData) :
    SourceRow :=
  { id := id
    name := sd.name
    description := jsOrStr sd.description pr.summary
    url := sd.url
    filepath := sd.filepath
    sourceType := sd.sourceType
    tags := sd.tags.getD []
    metadata := sd.metadata.getD []
    spaceId := sd.spaceId }

/-- The `tx.chunk.create` rows: one per extracted segment, in order, with
`metadata: { chunk_index: index }` and empty tags. -/
def mkChunkRows (sourceId : String) (texts : List String) : List ChunkRow :=
  texts.enum.map fun p =>
    { content := p.2, tags := [], chunkIndexMeta := p.1, sourceId := sourceId }

/-- `storeProcessedContentWithPrisma` (content-processor.ts lines 938–1002):
runs source-create plus all chunk-creates inside `prisma.$transaction`; if
anything in the callback throws, the transaction rolls back (the database is
unchanged) and the catch converts the error to a failure result.  On success
the source row and its chunk rows are committed together. -/
def storeProcessedContentWithPrisma (s : StorageBehavior) (db : Db)
    (pr : ProcessingResult) (sd : SourceData) : Db × SourceProcessingResult :=
  match s.sourceCreate with
  | .error e => (db, failedResult sd e.message)
  | .ok sid =>
    match firstChunkError s pr.text.length with
    | some e => (db, failedResult sd e.message)
    | none =>
      ({ sources := db.sources ++ [mkSourceRow sid pr sd]
         chunks := db.chunks ++ mkChunkRows sid pr.text },
       { sourceId := sid
         name := sd.name
         description := jsOrStr (some (jsOrStr sd.description pr.summary)) ""
         chunkCount := pr.text.length
         success := true
         error := none })

/-! ### The parallel Supabase storage path

`storeProcessedContent` (store-source route, lines 48–105) inserts the
source row, then bulk-inserts the chunk rows, with no transaction: a chunk
failure is caught and reported, but the already-inserted source row stays.
At runtime its `sourceData` comes from the request JSON, so it is modelled
with the field shapes this function actually reads (`title`, not `name`). -/

/-- JavaScript `s || null` for an optional string. -/
def jsTruthyOpt (a : Option String) : Option String :=
  match a with
  | some s => if s = "" then none else some s
  | none => none

/-- The source-data shape read by the Supabase path. -/
structure SupaSourceData where
  title : String
  description : Option String
  url : Option String
  sourceType : String
  spaceId : String
  userId : Option String
  deriving DecidableEq, Repr

/-- A row of the Supabase `sources` table. -/
structure SupaSourceRow where
  id : String
  title : String
  description : String
  url : Option String
  sourceType : String
  spaceId : String
  userId : Option String
  deriving DecidableEq, Repr

/-- A row of the Supabase `source_chunks` table. -/
structure SupaChunkRow where
  sourceId : String
  content : String
  chunkIndex : Nat
  deriving DecidableEq, Repr

/-- The Supabase database state touched by ingestion. -/
structure SupaDb where
  sources : List SupaSourceRow
  sourceChunks : List SupaChunkRow
  deriving DecidableEq, Repr

/-- Outcomes of the two Supabase inserts of one run. -/
structure SupaBehavior where
  sourceInsert : Except JsError String
  chunksInsert : Option JsError

/-- The result shape returned by the Supabase path (`title`, not `name`). -/
structure SupaResult where
  sourceId : String
  title : String
  description : String
  chunkCount : Nat
  success : Bool
  error : Option String
  deriving DecidableEq, Repr

/-- The `sources` row inserted by the Supabase path. -/
def supaNewSourceRow (sid : String) (pr : ProcessingResult)
    (sd : SupaSourceData) : SupaSourceRow :=
  { id := sid
    title := sd.title
    description := jsOrStr sd.description pr.summary
    url := jsTruthyOpt sd.url
    sourceType := sd.sourceType
    spaceId := sd.spaceId
    userId := sd.userId }

/-- `storeProcessedContent` (store-source route, lines 48–105): insert the
source row, then bulk-insert one `source_chunks` row per extracted segment
with `chunk_index: index`.  There is no transaction: when the chunk insert
fails, the catch reports failure but the already-inserted source row stays
in the database. -/
def storeProcessedContent (b : SupaBehavior) (db : SupaDb)
    (pr : ProcessingResult) (sd : SupaSourceData) : SupaDb × SupaResult :=
  match b.sourceInsert with
  | .error e =>
    (db,
     { sourceId := "", title := sd.title,
       description := jsOrStr sd.description "", chunkCount := 0,
       success := false, error := some e.message })
  | .ok sid =>
    match b.chunksInsert with
    | some e =>
      ({ db with sources := db.sources ++ [supaNewSourceRow sid pr sd] },
       { sourceId := "", title := sd.title,
         description := jsOrStr sd.description "", chunkCount := 0,
         success := false, error := some e.message })
    | none =>
      ({ sources := db.sources ++ [supaNewSourceRow sid pr sd]
         sourceChunks := db.sourceChunks ++
           (pr.text.enum.map fun p =>
             { sourceId := sid, content := p.2, chunkIndex := p.1 }) },
       { sourceId := sid, title := sd.title,
         description := jsOrStr sd.description pr.summary,
         chunkCount := pr.text.length, success := true, error := none })

/-! ## Ingestion orchestrator

`processAndStoreSource` (content-processor.ts lines 859–916): dispatch on
the source type, extract, then store via the Prisma path; the whole body is
inside one `try`, whose catch converts any thrown error into a failure
result.  The PDF/image/audio pipelines (upload, polling, provider call,
JSON parse, including their own precondition throws) are single oracles
giving the outcome of the corresponding `processX` call. -/

/-- External outcomes for one orchestration run. -/
structure ExtractionOracles where
  pdf : String → Except JsError ProcessingResult
  image : String → Except JsError ProcessingResult
  audio : String → Except JsError ProcessingResult
  yt : YtOracle

/-- The extraction `switch` of `processAndStoreSource` (lines 867–901);
`!filePath` and `!sourceData.url` treat `null` and `""` as falsy. -/
def extractForSource (o : ExtractionOracles) (filePath : Option String)
    (sd : SourceData) : Except JsError ProcessingResult :=
  match sd.sourceType with
  | .pdf =>
    match jsTruthyOpt filePath with
    | none => .error ⟨"Error", "File path is required for PDF processing"⟩
    | some fp => o.pdf fp
  | .image =>
    match jsTruthyOpt filePath with
    | none => .error ⟨"Error", "File path is required for image processing"⟩
    | some fp => o.image fp
  | .audio =>
    match jsTruthyOpt filePath with
    | none => .error ⟨"Error", "File path is required for audio processing"⟩
    | some fp => o.audio fp
  | .youtube =>
    match jsTruthyOpt sd.url with
    | none => .error ⟨"Error", "URL is required for YouTube processing"⟩
    | some u =>
      match extractYouTubeVideoId u with
      | none => .error ⟨"Error", "Invalid YouTube URL"⟩
      | some vid => processYouTubeVideo o.yt vid
  | .text =>
    .ok { text :=
            match jsTruthyOpt sd.description with
            | some d => [d]
            | none => ["Text content not provided"]
          summary :=
            jsOrStr (sd.description.map fun d => d.take 200) "Text source" }

/-- `processAndStoreSource` (content-processor.ts lines 859–916). -/
def processAndStoreSource (o : ExtractionOracles) (s : StorageBehavior)
    (db : Db) (filePath : Option String) (sd : SourceData) :
    Db × SourceProcessingResult :=
  match extractForSource o filePath sd with
  | .error e => (db, failedResult sd e.message)
  | .ok pr => storeProcessedContentWithPrisma s db pr sd

/-! ## Shared concrete fixtures for witnesses and counterexamples -/

/-- The empty Prisma database. -/
def dbEmpty : Db := { sources := [], chunks := [] }

/-- The empty Supabase database. -/
def supaDbEmpty : SupaDb := { sources := [], sourceChunks := [] }

/-- A two-segment extraction result. -/
def demoPR : ProcessingResult := { text := ["alpha", "beta"], summary := "sum" }

/-- A plain-text source. -/
def demoTextSourceData : SourceData :=
  { name := "Note", description := some "Hello world.", url := none,
    filepath := none, sourceType := .text, tags := none, spaceId := "space-1",
    userId := none, metadata := none }

/-- A Supabase-path source payload. -/
def demoSupaSD : SupaSourceData :=
  { title := "My doc", description := none, url := none, sourceType := "pdf",
    spaceId := "space-1", userId := some "user-1" }

/-- A storage run in which every create succeeds. -/
def demoStorageOk : StorageBehavior where
  sourceCreate := .ok "src-yt"
  chunkCreate := fun _ => none

/-- A Prisma storage run whose second chunk-create fails. -/
def chunkFailBehavior : StorageBehavior where
  sourceCreate := .ok "src-2"
  chunkCreate := fun i =>
    if i = 1 then some ⟨"Error", "chunk create failed"⟩ else none

/-- A Supabase storage run whose chunk insert fails. -/
def supaChunkFailBehavior : SupaBehavior where
  sourceInsert := .ok "src-1"
  chunksInsert := some ⟨"Error", "chunk insert failed"⟩

/-! ## C1: atomicity of ingestion storage -/

/-- C1 counterexample: in the Supabase storage path `storeProcessedContent`
(the second implementation the claim covers), a run on the empty database in
which the source insert succeeds and the chunk insert then fails is reported
as a failure, yet the persisted state does not equal the state before the
run: the created source row survives with no chunks — an orphaned Source. -/
theorem storeProcessedContent_not_atomic :
    (storeProcessedContent supaChunkFailBehavior supaDbEmpty demoPR
        demoSupaSD).2.success = false ∧
    (storeProcessedContent supaChunkFailBehavior supaDbEmpty demoPR
        demoSupaSD).1 ≠ supaDbEmpty ∧
    (storeProcessedContent supaChunkFailBehavior supaDbEmpty demoPR
        demoSupaSD).1.sources.length = 1 ∧
    (storeProcessedContent supaChunkFailBehavior supaDbEmpty demoPR
        demoSupaSD).1.sourceChunks = [] := by
  refine ⟨rfl, ?_, rfl, rfl⟩
  decide

/-- C1 (amended): the Prisma transactional path is atomic — whenever the
source create succeeds and some chunk create then fails, the whole
transaction rolls back (the database equals the state before the run) and
the run is reported as a failure carrying the chunk error's message. -/
theorem storeProcessedContentWithPrisma_atomic (s : StorageBehavior)
    (db : Db) (pr : ProcessingResult) (sd : SourceData) (sid : String)
    (e : JsError)
    (hsrc : s.sourceCreate = .ok sid)
    (hchunk : firstChunkError s pr.text.length = some e) :
    storeProcessedContentWithPrisma s db pr sd =
      (db, failedResult sd e.message) := by
  unfold storeProcessedContentWithPrisma
  rw [hsrc, hchunk]

theorem storeProcessedContentWithPrisma_atomic_witness :
    storeProcessedContentWithPrisma chunkFailBehavior dbEmpty demoPR
        demoTextSourceData =
      (dbEmpty, failedResult demoTextSourceData "chunk create failed") :=
  storeProcessedContentWithPrisma_atomic chunkFailBehavior dbEmpty demoPR
    demoTextSourceData "src-2" ⟨"Error", "chunk create failed"⟩ rfl (by decide)

/-! ## C8: one chunk per extracted segment, in order -/

/-- C8: in both storage paths, every successful run creates exactly one
chunk row per extracted segment, appended in extraction order, where the row
for segment `i` has that segment as content and carries `chunk_index = i`,
and the returned result reports `chunkCount = n`. -/
theorem ingestion_creates_one_chunk_per_segment :
    (∀ (s : StorageBehavior) (db : Db) (pr : ProcessingResult)
        (sd : SourceData) (db2 : Db) (res : SourceProcessingResult),
      storeProcessedContentWithPrisma s db pr sd = (db2, res) →
      res.success = true →
      db2.chunks = db.chunks ++ (pr.text.enum.map fun p =>
        { content := p.2, tags := [], chunkIndexMeta := p.1,
          sourceId := res.sourceId }) ∧
      res.chunkCount = pr.text.length) ∧
    (∀ (b : SupaBehavior) (db : SupaDb) (pr : ProcessingResult)
        (sd : SupaSourceData) (db2 : SupaDb) (res : SupaResult),
      storeProcessedContent b db pr sd = (db2, res) →
      res.success = true →
      db2.sourceChunks = db.sourceChunks ++ (pr.text.enum.map fun p =>
        { sourceId := res.sourceId, content := p.2, chunkIndex := p.1 }) ∧
      res.chunkCount = pr.text.length) := by
  constructor
  · intro s db pr sd db2 res h hsucc
    unfold storeProcessedContentWithPrisma at h
    rcases hs : s.sourceCreate with e | sid
    · rw [hs] at h
      injection h with h1 h2
      rw [← h2] at hsucc
      simp [failedResult] at hsucc
    · rw [hs] at h
      rcases hc : firstChunkError s pr.text.length with _ | e
      · rw [hc] at h
        injection h with h1 h2
        subst h1
        subst h2
        exact ⟨by simp [mkChunkRows], rfl⟩
      · rw [hc] at h
        injection h with h1 h2
        rw [← h2] at hsucc
        simp [failedResult] at hsucc
  · intro b db pr sd db2 res h hsucc
    unfold storeProcessedContent at h
    rcases hs : b.sourceInsert with e | sid
    · rw [hs] at h
      injection h with h1 h2
      rw [← h2] at hsucc
      simp at hsucc
    · rw [hs] at h
      rcases hc : b.chunksInsert with _ | e
      · rw [hc] at h
        injection h with h1 h2
        subst h1
        subst h2
        exact ⟨rfl, rfl⟩
      · rw [hc] at h
        injection h with h1 h2
        rw [← h2] at hsucc
        simp at hsucc

theorem ingestion_creates_one_chunk_per_segment_witness :
    ((storeProcessedContentWithPrisma demoStorageOk dbEmpty demoPR
          demoTextSourceData).1.chunks =
        dbEmpty.chunks ++ (demoPR.text.enum.map fun p =>
          { content := p.2, tags := [], chunkIndexMeta := p.1,
            sourceId := (storeProcessedContentWithPrisma demoStorageOk dbEmpty
              demoPR demoTextSourceData).2.sourceId }) ∧
      (storeProcessedContentWithPrisma demoStorageOk dbEmpty demoPR
          demoTextSourceData).2.chunkCount = demoPR.text.length) ∧
    ((storeProcessedContent ⟨.ok "src-1", none⟩ supaDbEmpty demoPR
          demoSupaSD).1.sourceChunks =
        supaDbEmpty.sourceChunks ++ (demoPR.text.enum.map fun p =>
          { sourceId := (storeProcessedContent ⟨.ok "src-1", none⟩ supaDbEmpty
              demoPR demoSupaSD).2.sourceId,
            content := p.2, chunkIndex := p.1 }) ∧
      (storeProcessedContent ⟨.ok "src-1", none⟩ supaDbEmpty demoPR
          demoSupaSD).2.chunkCount = demoPR.text.length) :=
  ⟨ingestion_creates_one_chunk_per_segment.1 demoStorageOk dbEmpty demoPR
      demoTextSourceData _ _ rfl (by decide),
   ingestion_creates_one_chunk_per_segment.2 ⟨.ok "src-1", none⟩ supaDbEmpty
      demoPR demoSupaSD _ _ rfl (by decide)⟩

/-! ## C2: the orchestrator is a failure boundary -/

/-- C2: `processAndStoreSource` always returns a result value — it is a
total function of the input and of every possible outcome of the extraction,
provider and storage boundaries (thrown errors included, since the oracles
range over `Except`); every run ends either successfully with no error
string, or reporting `success = false` together with an error message. -/
theorem processAndStoreSource_failure_boundary (o : ExtractionOracles)
    (s : StorageBehavior) (db : Db) (fp : Option String) (sd : SourceData) :
    ((processAndStoreSource o s db fp sd).2.success = true ∧
      (processAndStoreSource o s db fp sd).2.error = none) ∨
    ((processAndStoreSource o s db fp sd).2.success = false ∧
      ∃ m, (processAndStoreSource o s db fp sd).2.error = some m) := by
  unfold processAndStoreSource
  rcases hx : extractForSource o fp sd with e | pr
  · right
    simp [failedResult]
  · simp only []
    unfold storeProcessedContentWithPrisma
    rcases hs : s.sourceCreate with e | sid
    · right
      simp [failedResult]
    · rcases hc : firstChunkError s pr.text.length with _ | e
      · left
        simp
      · right
        simp [failedResult]

/-! ## C6: missing transcript is reported, no Source is created -/

/-- The orchestrator-level error message when the transcript is missing. -/
def noTranscriptOrchestratorMsg : String :=
  "Failed to process YouTube video: No transcript available for this video"

/-- C6: for every ingestion of a YouTube source whose transcript fetch
returns `null` or an empty cue list, `processAndStoreSource` leaves the
database unchanged (no Source row is created) and reports failure with an
error message containing `"transcript"`. -/
theorem processAndStoreSource_no_transcript (o : ExtractionOracles)
    (s : StorageBehavior) (db : Db) (fp : Option String) (sd : SourceData)
    (u vid : String)
    (htype : sd.sourceType = .youtube)
    (hurl : jsTruthyOpt sd.url = some u)
    (hvid : extractYouTubeVideoId u = some vid)
    (hfetch : o.yt.fetchTranscript vid = .ok none ∨
      o.yt.fetchTranscript vid = .ok (some [])) :
    processAndStoreSource o s db fp sd =
      (db, failedResult sd noTranscriptOrchestratorMsg) ∧
    strContains noTranscriptOrchestratorMsg "transcript" ∧
    (failedResult sd noTranscriptOrchestratorMsg).success = false := by
  refine ⟨?_, ⟨"Failed to process YouTube video: No ",
    " available for this video", by decide⟩, rfl⟩
  unfold processAndStoreSource extractForSource
  rw [htype, hurl]
  rcases hfetch with hf | hf <;>
    simp [hvid, processYouTubeVideo, processYouTubeVideoBody, hf,
      noTranscriptError, noTranscriptOrchestratorMsg]

/-- Oracles for a video with no captions. -/
def emptyTranscriptOracles : ExtractionOracles where
  pdf := fun _ => .error ⟨"Error", "unused"⟩
  image := fun _ => .error ⟨"Error", "unused"⟩
  audio := fun _ => .error ⟨"Error", "unused"⟩
  yt :=
    { fetchTranscript := fun _ => .ok none
      apiKeyPresent := true
      chunkTranscript := fun _ => .ok ⟨none, none⟩ }

/-- A YouTube source payload. -/
def demoYtSourceData : SourceData :=
  { name := "My video", description := none,
    url := some "https://youtu.be/dQw4w9WgXcQ", filepath := none,
    sourceType := .youtube, tags := none, spaceId := "space-1",
    userId := none, metadata := none }

theorem processAndStoreSource_no_transcript_witness :
    processAndStoreSource emptyTranscriptOracles demoStorageOk dbEmpty none
        demoYtSourceData =
      (dbEmpty, failedResult demoYtSourceData noTranscriptOrchestratorMsg) ∧
    strContains noTranscriptOrchestratorMsg "transcript" ∧
    (failedResult demoYtSourceData noTranscriptOrchestratorMsg).success =
      false :=
  processAndStoreSource_no_transcript emptyTranscriptOracles demoStorageOk
    dbEmpty none demoYtSourceData "https://youtu.be/dQw4w9WgXcQ"
    "dQw4w9WgXcQ" rfl (by decide) (by decide) (Or.inl rfl)

/-! ## C5: provider polling (`waitForFilesActive`)

`waitForFilesActive` (content-processor.ts lines 115–135) polls each
uploaded file with `getFile` and sleeps 10 s while the state is
`"PROCESSING"`, with no retry limit and no time budget; when a file leaves
`PROCESSING` in a state other than `ACTIVE` it throws.  The provider is
modelled by the state it reports on the `k`-th `getFile` call for a given
file name; `fuel` is the number of `getFile` calls the model is allowed to
observe, and `none` means the loop is still running after that many calls. -/

/-- A provider file state as reported by `getFile`. -/
inductive FileState where
  | processing
  | active
  | other (s : String)
  deriving DecidableEq, Repr

/-- An uploaded file reference (only `name` is used by the loop). -/
structure GeminiFile where
  name : String
  deriving DecidableEq, Repr

/-- The state the provider reports on the `k`-th `getFile(name)` call. -/
def PollOracle : Type := String → Nat → FileState

/-- The inner `while (file.state === "PROCESSING")` loop for one file,
followed by the `ACTIVE` check: `k` counts `getFile` calls already made for
this file; on exit the remaining fuel is returned. -/
def pollFile (o : PollOracle) (f : GeminiFile) (k : Nat) :
    Nat → Option (Except JsError Unit × Nat)
  | 0 => none
  | fuel + 1 =>
    match o f.name k with
    | .processing => pollFile o f (k + 1) fuel
    | .active => some (.ok (), fuel)
    | .other s =>
      some (.error ⟨"Error",
        "File " ++ f.name ++ " failed to process with state: " ++ s⟩, fuel)

/-- `waitForFilesActive` (content-processor.ts lines 115–135): polls the
files one after another; the first non-`ACTIVE` terminal state throws. -/
def waitForFilesActive (o : PollOracle) :
    List GeminiFile → Nat → Option (Except JsError Unit)
  | [], _ => some (.ok ())
  | f :: rest, fuel =>
    match pollFile o f 0 fuel with
    | none => none
    | some (.error e, _) => some (.error e)
    | some (.ok _, fuel2) => waitForFilesActive o rest fuel2

/-- C5 (the code violates the claim): the polling loop has no upper bound on
its iterations and no timeout — against a provider that reports
`PROCESSING` on every poll, `waitForFilesActive` is still running after any
finite number of `getFile` calls; it neither returns, nor fails, nor times
out. -/
theorem waitForFilesActive_unbounded (name : String)
    (rest : List GeminiFile) (fuel : Nat) :
    waitForFilesActive (fun _ _ => FileState.processing) (⟨name⟩ :: rest)
      fuel = none := by
  have hp : ∀ (f : GeminiFile) (k n : Nat),
      pollFile (fun _ _ => FileState.processing) f k n = none := by
    intro f k n
    induction n generalizing k with
    | zero => rfl
    | succ m ih => simp [pollFile, ih]
  unfold waitForFilesActive
  rw [hp]

/-! ## C10: client-side PDF extraction is constant

`processPdfWithGemini` (content-processor.ts lines 746–763) ignores its file
argument and returns a hard-coded placeholder; `processClientFileAndStore`
(lines 1058–1108) therefore posts that constant to the `/api/store-source`
endpoint for every PDF, so no text extracted from the PDF is ever
persisted.  The model records every body posted to the endpoint. -/

/-- A client-side `File` (name, MIME type, base64 contents). -/
structure ClientFile where
  name : String
  mimeType : String
  dataBase64 : String
  deriving DecidableEq, Repr

/-- The `{ chunks, summary }` shape of the client-side processors. -/
structure ClientProcessingResult where
  chunks : List String
  summary : String
  deriving DecidableEq, Repr

/-- `processPdfWithGemini` (lines 746–763): a constant placeholder,
independent of the file. -/
def processPdfWithGemini (_pdfFile : ClientFile) : ClientProcessingResult :=
  { chunks :=
      ["This is a placeholder for PDF content processing from the client side.",
       "For full PDF processing capabilities, use the server-side processPDF function."]
    summary := "PDF processing from client side (limited functionality)" }

/-- `mapToProcessingResult` (lines 842–850). -/
def mapToProcessingResult (r : ClientProcessingResult) : ProcessingResult :=
  { text := r.chunks, summary := r.summary }

/-- The JSON body posted to `/api/store-source`. -/
structure StoreRequestBody where
  processingResult : ProcessingResult
  sourceData : SourceData
  deriving DecidableEq, Repr

/-- The fetch response as used by the code (`ok`, `statusText`, `json()`). -/
structure FetchResponse where
  ok : Bool
  statusText : String
  json : SourceProcessingResult
  deriving DecidableEq, Repr

/-- External boundaries of the client path: the client-side image processor
and the `/api/store-source` fetch. -/
structure ClientOracles where
  imageExtract : ClientFile → Except JsError ClientProcessingResult
  fetchStore : StoreRequestBody → Except JsError FetchResponse

/-- The string form of a source type (template `${sourceData.type}`). -/
def SourceType.str : SourceType → String
  | .pdf => "pdf"
  | .image => "image"
  | .youtube => "youtube"
  | .audio => "audio"
  | .text => "text"

/-- `processClientFileAndStore` (lines 1058–1108); the second component is
the list of bodies posted to `/api/store-source` during the run. -/
def processClientFileAndStore (o : ClientOracles) (file : ClientFile)
    (sd : SourceData) : SourceProcessingResult × List StoreRequestBody :=
  match (match sd.sourceType with
         | .image => (o.imageExtract file).map mapToProcessingResult
         | .pdf => .ok (mapToProcessingResult (processPdfWithGemini file))
         | t =>
           .error ⟨"Error",
             "Client-side processing not supported for type: " ++ t.str⟩) with
  | .error e => (failedResult sd e.message, [])
  | .ok r =>
    match o.fetchStore ⟨r, sd⟩ with
    | .error e => (failedResult sd e.message, [⟨r, sd⟩])
    | .ok resp =>
      if resp.ok then (resp.json, [⟨r, sd⟩])
      else
        (failedResult sd ("Failed to store source: " ++ resp.statusText),
         [⟨r, sd⟩])

/-- C10: client-side PDF extraction is a constant function — every file
yields the same placeholder result, and a client-side PDF ingestion posts
exactly that constant (never text from the PDF) to the store endpoint. -/
theorem processPdfWithGemini_constant :
    (∀ f g : ClientFile, processPdfWithGemini f = processPdfWithGemini g) ∧
    (∀ (o : ClientOracles) (f : ClientFile) (sd : SourceData),
      sd.sourceType = .pdf →
      (processClientFileAndStore o f sd).2 =
        [{ processingResult :=
             { text :=
                 ["This is a placeholder for PDF content processing from the client side.",
                  "For full PDF processing capabilities, use the server-side processPDF function."]
               summary := "PDF processing from client side (limited functionality)" }
           sourceData := sd }]) := by
  refine ⟨fun f g => rfl, fun o f sd htype => ?_⟩
  unfold processClientFileAndStore
  rw [htype]
  rcases hf : o.fetchStore ⟨mapToProcessingResult (processPdfWithGemini f), sd⟩
    with e | resp
  all_goals simp only [mapToProcessingResult, processPdfWithGemini] at hf ⊢
  · rw [hf]
  · rw [hf]
    rcases hok : resp.ok <;> simp [hok]

/-- Client-path oracles in which the store endpoint accepts the request. -/
def demoClientOracles : ClientOracles where
  imageExtract := fun _ => .error ⟨"Error", "unused"⟩
  fetchStore := fun _ =>
    .ok ⟨true, "OK",
      { sourceId := "src-9", name := "Doc", description := "",
        chunkCount := 2, success := true, error := none }⟩

/-- A PDF source payload for the client path. -/
def demoPdfSourceData : SourceData :=
  { name := "Doc", description := none, url := none, filepath := none,
    sourceType := .pdf, tags := none, spaceId := "space-1", userId := none,
    metadata := none }

/-- A concrete PDF file. -/
def demoPdfFile : ClientFile :=
  { name := "file.pdf", mimeType := "application/pdf", dataBase64 := "JVBERi0=" }

theorem processPdfWithGemini_constant_witness :
    processPdfWithGemini demoPdfFile =
      processPdfWithGemini
        { name := "other.pdf", mimeType := "application/pdf",
          dataBase64 := "AAAA" } ∧
    (processClientFileAndStore demoClientOracles demoPdfFile
        demoPdfSourceData).2 =
      [{ processingResult :=
           { text :=
               ["This is a placeholder for PDF content processing from the client side.",
                "For full PDF processing capabilities, use the server-side processPDF function."]
             summary := "PDF processing from client side (limited functionality)" }
         sourceData := demoPdfSourceData }] :=
  ⟨processPdfWithGemini_constant.1 demoPdfFile
      { name := "other.pdf", mimeType := "application/pdf",
        dataBase64 := "AAAA" },
   processPdfWithGemini_constant.2 demoClientOracles demoPdfFile
      demoPdfSourceData rfl⟩

end Muselog
